import Mathlib

/-!
# Browser proxy of the magnetometer plugin (`src/browser/MagnetometerProxy.js`)

A shallow embedding of the proxy module.

* JavaScript numbers are modelled as real numbers (`ℝ`); `Math.sqrt`, `Math.sin`,
  `Math.cos`, `Math.PI` are `Real.sqrt`, `Real.sin`, `Real.cos`, `Real.pi`, and
  `Math.atan2 y x` is the argument of the complex number `x + y i`.
  `Date.now()` is an input (`now : ℕ`) of every function that calls it.
  The rounding of binary64 arithmetic is not part of these functions: what is
  proved of them is what the formulas of the source compute over the reals. Where
  rounding decides the outcome, the step is modelled apart (`toDouble`,
  `normalizeHeadingDouble`).
* The two module variables `watchInterval` and `watchHeadingInterval` are fields of
  `State`, next to the part of the platform the module acts on: the sensors it has
  started and not stopped, and the interval timers it has set and not cleared.
* A function of `module.exports` takes the state and returns the new state and the
  calls it made, synchronously, to its two continuations. What the listeners and
  timer bodies it registered do later is `dispatch`, one platform event at a time.
-/

namespace MagnetometerProxy

/-! ## Payloads and continuations -/

/-- The object the magnetic operations pass to `successCallback`. -/
structure MagneticReading where
  x : ℝ
  y : ℝ
  z : ℝ
  magnitude : ℝ
  timestamp : ℕ

/-- The object the heading operations pass to `successCallback`. -/
structure HeadingReading where
  magneticHeading : ℝ
  trueHeading : ℝ
  headingAccuracy : ℝ
  timestamp : ℕ

/-- The object `getMagnetometerInfo` passes to `successCallback`. -/
structure MagnetometerInfo where
  isAvailable : Bool
  reading : MagneticReading
  heading : HeadingReading
  accuracy : ℝ
  calibrationNeeded : Bool
  platform : String

/-- The argument of one call of `successCallback`. -/
inductive Payload where
  | number (n : ℝ)
  | reading (r : MagneticReading)
  | heading (h : HeadingReading)
  | info (i : MagnetometerInfo)
  | nothing

/-- One call of a continuation: `successCallback(p)` or `errorCallback(msg)`. -/
inductive Call where
  | success (p : Payload)
  | error (msg : String)

/-! ## The platform -/

/-- What `new window.X(options)`, the two `addEventListener` calls and
`sensor.start()` do inside a `try` block: the constructor throws, `start` throws
(the sensor is never activated), or the sensor is activated. -/
inductive Acquire where
  | ctorThrows
  | startThrows
  | started
  deriving DecidableEq

/-- The part of `window` the module looks at, at the time of one call. -/
structure Window where
  hasMagnetometer : Bool
  hasAbsoluteOrientationSensor : Bool
  magnetometer : Acquire
  orientation : Acquire

/-- The function whose `reading` and `error` listeners a sensor carries. -/
inductive Listener where
  | getReading
  | getHeading
  | watchReadings
  | watchHeading
  | getFieldStrength
  deriving DecidableEq

/-- A sensor object on which `start()` has returned and `stop()` has not been called. -/
structure Sensor where
  id : ℕ
  listener : Listener
  frequency : ℝ

/-- The closure given to `setInterval`, with the current value of the variable
it captures: `angle` in `startMockWatch`, `heading` in `startMockHeadingWatch`. -/
inductive TimerBody where
  | mockWatch (angle : ℝ)
  | mockHeading (heading : ℕ)

/-- An interval timer that has been set and not cleared. -/
structure Timer where
  id : ℕ
  delay : ℝ
  body : TimerBody

/-- A non-null value of `watchInterval` or `watchHeadingInterval`: a sensor object
or the number returned by `setInterval`. -/
inductive Handle where
  | sensor (id : ℕ)
  | timer (id : ℕ)
  deriving DecidableEq

/-- The module variables and the live platform resources. -/
structure State where
  watchInterval : Option Handle
  watchHeadingInterval : Option Handle
  sensors : List Sensor
  timers : List Timer
  nextId : ℕ

/-- The state when the module is loaded: both variables are `null`. -/
def State.init : State :=
  { watchInterval := none, watchHeadingInterval := none, sensors := [], timers := [],
    nextId := 0 }

/-- The test `if (h)` on a session variable: `null` is falsy, a sensor object and
the positive integer returned by `setInterval` are truthy. -/
def truthy : Option Handle → Bool
  | none => false
  | some _ => true

/-- The test `typeof h.stop === 'function'`: true of a sensor object, false of a timer id. -/
def Handle.hasStop : Handle → Bool
  | .sensor _ => true
  | .timer _ => false

/-- The call `sensor.stop()` on the sensor with this id. -/
def sensorStop (id : ℕ) (s : State) : State :=
  { s with sensors := s.sensors.filter fun sn => sn.id ≠ id }

/-- The call `h.stop()`. -/
def Handle.stop : Handle → State → State
  | .sensor id, s => sensorStop id s
  | .timer _, s => s

/-- The call `clearInterval(h)`: cancels the timer with this id; given a sensor
object, which identifies no timer, it does nothing. -/
def clearInterval : Handle → State → State
  | .timer id, s => { s with timers := s.timers.filter fun t => t.id ≠ id }
  | .sensor _, s => s

/-- The call `setInterval(body, delay)`: returns the new timer id. -/
def setInterval (body : TimerBody) (delay : ℝ) (s : State) : ℕ × State :=
  (s.nextId + 1,
    { s with timers := { id := s.nextId + 1, delay := delay, body := body } :: s.timers,
             nextId := s.nextId + 1 })

/-- A successful `new window.X({ frequency })` with its listeners and `sensor.start()`. -/
def startSensor (l : Listener) (frequency : ℝ) (s : State) : ℕ × State :=
  (s.nextId + 1,
    { s with sensors := { id := s.nextId + 1, listener := l, frequency := frequency } :: s.sensors,
             nextId := s.nextId + 1 })

/-- Attribute values of a sensor object when its `reading` event fires: `x`, `y`,
`z` of a `Magnetometer`, `quaternion` of an `AbsoluteOrientationSensor`
(`none` is `null` or `undefined`). -/
structure SensorValues where
  x : Option ℝ
  y : Option ℝ
  z : Option ℝ
  quaternion : Option (List ℝ)

/-- A platform event delivered to a listener or timer body of the module. -/
inductive Event where
  | reading (id : ℕ) (v : SensorValues)
  | error (id : ℕ) (message : String)
  | tick (id : ℕ)

/-! ## Helpers of the module -/

/-- The function `Math.atan2(y, x)` over the reals: the angle in `(-π, π]` of the
point `(x, y)`, and `0` at the origin. -/
noncomputable def atan2 (y x : ℝ) : ℝ :=
  Complex.arg ⟨x, y⟩

/-- The function `Math.round`: the nearest integer, halves rounded up. -/
noncomputable def round (m : ℝ) : ℝ :=
  (⌊m + 1 / 2⌋ : ℤ)

/-- The expression `v || 0` on a sensor attribute. -/
def orZero (v : Option ℝ) : ℝ :=
  v.getD 0

/-- The expression `message || dflt` on an error message: the empty string is falsy. -/
def orDefault (message dflt : String) : String :=
  if message = "" then dflt else message

/-- The expression `args && args[0] ? args[0] : 100`. -/
noncomputable def frequencyArg (args : Option (List ℝ)) : ℝ :=
  match args with
  | some (f :: _) => if f = 0 then 100 else f
  | _ => 100

/-- The function `quaternionToHeading`, its formulas read over the reals. In the
binary64 arithmetic of the source the sum `heading + 360` of the last step is
rounded (`normalizeHeadingDouble`), so a strict bound below 360 that holds of this
function need not hold of the value the program returns. -/
noncomputable def quaternionToHeading (q : Option (List ℝ)) : ℝ :=
  match q with
  | none => 0
  | some q =>
    if q.length < 4 then 0
    else
      let x := q.getD 0 0
      let y := q.getD 1 0
      let z := q.getD 2 0
      let w := q.getD 3 0
      let siny_cosp := 2 * (w * z + x * y)
      let cosy_cosp := 1 - 2 * (y * y + z * z)
      let yaw := atan2 siny_cosp cosy_cosp
      let heading := yaw * 180 / Real.pi
      if heading < 0 then heading + 360 else heading

/-- The integer nearest to `x`, a tie going to the even one. -/
noncomputable def roundHalfEven (x : ℝ) : ℤ :=
  if x - ⌊x⌋ < 1 / 2 then ⌊x⌋
  else if 1 / 2 < x - ⌊x⌋ then ⌊x⌋ + 1
  else if ⌊x⌋ % 2 = 0 then ⌊x⌋
  else ⌊x⌋ + 1

/-- The binary64 number nearest to the real `x`, a tie going to the even
significand, for `x` in the range of normal numbers: `x` is rounded to a multiple
of the unit in the last place of its binade, `2 ^ (⌊log₂ |x|⌋ - 52)`. -/
noncomputable def toDouble (x : ℝ) : ℝ :=
  if x = 0 then 0
  else roundHalfEven (x / (2 : ℝ) ^ (Int.log 2 |x| - 52)) * (2 : ℝ) ^ (Int.log 2 |x| - 52)

/-- The last step of `quaternionToHeading`, `if (heading < 0) heading += 360`, on
a binary64 value `heading`: the sum is the exact sum rounded to binary64. -/
noncomputable def normalizeHeadingDouble (heading : ℝ) : ℝ :=
  if heading < 0 then toDouble (heading + 360) else heading

/-- The mock object of `getReading` and `getMagnetometerInfo`. -/
noncomputable def mockReading (now : ℕ) : MagneticReading :=
  { x := 25.5, y := -12.3, z := 45.8, magnitude := 54.2, timestamp := now }

/-- The mock object of `getHeading` and `getMagnetometerInfo`. -/
def mockHeading (now : ℕ) : HeadingReading :=
  { magneticHeading := 180, trueHeading := 180, headingAccuracy := -1, timestamp := now }

/-- The value `magnitude` computed by the `reading` listeners of `getReading`,
`watchReadings` and `getFieldStrength`. -/
noncomputable def sensorMagnitude (v : SensorValues) : ℝ :=
  let x := orZero v.x
  let y := orZero v.y
  let z := orZero v.z
  Real.sqrt (x * x + y * y + z * z)

/-- The object built by the `reading` listeners of `getReading` and `watchReadings`. -/
noncomputable def sensorReading (v : SensorValues) (now : ℕ) : MagneticReading :=
  let x := orZero v.x
  let y := orZero v.y
  let z := orZero v.z
  let magnitude := Real.sqrt (x * x + y * y + z * z)
  { x := x, y := y, z := z, magnitude := magnitude, timestamp := now }

/-- The object built by the `reading` listeners of `getHeading` and `watchHeading`. -/
noncomputable def sensorHeading (v : SensorValues) (now : ℕ) : HeadingReading :=
  let heading := quaternionToHeading v.quaternion
  { magneticHeading := heading, trueHeading := heading, headingAccuracy := -1, timestamp := now }

/-- The object built by the timer body of `startMockWatch`, after `angle += 0.1`. -/
noncomputable def mockWatchReading (angle : ℝ) (now : ℕ) : MagneticReading :=
  { x := 25.5 + Real.sin angle * 5,
    y := -12.3 + Real.cos angle * 5,
    z := 45.8 + Real.sin (angle * 0.5) * 3,
    magnitude := 54.2 + Real.sin angle * 2,
    timestamp := now }

/-- The object built by the timer body of `startMockHeadingWatch`, after the increment. -/
def mockHeadingReading (heading : ℕ) (now : ℕ) : HeadingReading :=
  { magneticHeading := heading, trueHeading := heading, headingAccuracy := -1, timestamp := now }

/-- The function `startMockWatch`. -/
noncomputable def startMockWatch (frequency : ℝ) (s : State) : State :=
  let angle : ℝ := 0
  let r := setInterval (.mockWatch angle) frequency s
  { r.2 with watchInterval := some (.timer r.1) }

/-- The function `startMockHeadingWatch`. -/
def startMockHeadingWatch (frequency : ℝ) (s : State) : State :=
  let heading : ℕ := 180
  let r := setInterval (.mockHeading heading) frequency s
  { r.2 with watchHeadingInterval := some (.timer r.1) }

/-! ## The functions of `module.exports` -/

/-- The function `isAvailable`. -/
def isAvailable (w : Window) (s : State) : State × List Call :=
  let available := w.hasMagnetometer || w.hasAbsoluteOrientationSensor
  (s, [.success (.number (if available then 1 else 0))])

/-- The function `getReading`. -/
noncomputable def getReading (w : Window) (now : ℕ) (s : State) : State × List Call :=
  if w.hasMagnetometer then
    match w.magnetometer with
    | .started => ((startSensor .getReading 10 s).2, [])
    | _ => (s, [.success (.reading (mockReading now))])
  else
    (s, [.success (.reading (mockReading now))])

/-- The function `getHeading`. -/
noncomputable def getHeading (w : Window) (now : ℕ) (s : State) : State × List Call :=
  if w.hasAbsoluteOrientationSensor then
    match w.orientation with
    | .started => ((startSensor .getHeading 10 s).2, [])
    | _ => (s, [.success (.heading (mockHeading now))])
  else
    (s, [.success (.heading (mockHeading now))])

/-- The function `watchReadings`. -/
noncomputable def watchReadings (w : Window) (args : Option (List ℝ)) (s : State) :
    State × List Call :=
  let frequency := frequencyArg args
  let s1 := if truthy s.watchInterval then
      match s.watchInterval with
      | some h => clearInterval h s
      | none => s
    else s
  if w.hasMagnetometer then
    match w.magnetometer with
    | .started =>
      let r := startSensor .watchReadings (1000 / frequency) s1
      ({ r.2 with watchInterval := some (.sensor r.1) }, [])
    | _ => (startMockWatch frequency s1, [])
  else
    (startMockWatch frequency s1, [])

/-- The function `stopWatch`. -/
def stopWatch (s : State) : State × List Call :=
  let s1 := if truthy s.watchInterval then
      match s.watchInterval with
      | some h =>
        let s2 := if h.hasStop then h.stop s else clearInterval h s
        { s2 with watchInterval := none }
      | none => s
    else s
  (s1, [.success .nothing])

/-- The function `watchHeading`. -/
noncomputable def watchHeading (w : Window) (args : Option (List ℝ)) (s : State) :
    State × List Call :=
  let frequency := frequencyArg args
  let s1 := if truthy s.watchHeadingInterval then
      match s.watchHeadingInterval with
      | some h => if h.hasStop then h.stop s else clearInterval h s
      | none => s
    else s
  if w.hasAbsoluteOrientationSensor then
    match w.orientation with
    | .started =>
      let r := startSensor .watchHeading (1000 / frequency) s1
      ({ r.2 with watchHeadingInterval := some (.sensor r.1) }, [])
    | _ => (startMockHeadingWatch frequency s1, [])
  else
    (startMockHeadingWatch frequency s1, [])

/-- The function `stopWatchHeading`. -/
def stopWatchHeading (s : State) : State × List Call :=
  let s1 := if truthy s.watchHeadingInterval then
      match s.watchHeadingInterval with
      | some h =>
        let s2 := if h.hasStop then h.stop s else clearInterval h s
        { s2 with watchHeadingInterval := none }
      | none => s
    else s
  (s1, [.success .nothing])

/-- The function `getMagnetometerInfo`. -/
noncomputable def getMagnetometerInfo (w : Window) (now : ℕ) (s : State) : State × List Call :=
  let available := w.hasMagnetometer || w.hasAbsoluteOrientationSensor
  (s, [.success (.info
    { isAvailable := available,
      reading := mockReading now,
      heading := mockHeading now,
      accuracy := 3,
      calibrationNeeded := false,
      platform := "browser" })])

/-- The function `getAccuracy`. -/
def getAccuracy (s : State) : State × List Call :=
  (s, [.success (.number 3)])

/-- The function `isCalibrationNeeded`. -/
def isCalibrationNeeded (s : State) : State × List Call :=
  (s, [.success (.number 0)])

/-- The function `getFieldStrength`. -/
def getFieldStrength (w : Window) (s : State) : State × List Call :=
  if w.hasMagnetometer then
    match w.magnetometer with
    | .started => ((startSensor .getFieldStrength 10 s).2, [])
    | _ => (s, [.success (.number 54)])
  else
    (s, [.success (.number 54)])

/-! ## The listeners and timer bodies -/

/-- The `reading` listener a sensor carries, run with the sensor's current values. -/
noncomputable def onReading (sn : Sensor) (v : SensorValues) (now : ℕ) (s : State) :
    State × List Call :=
  match sn.listener with
  | .getReading => (sensorStop sn.id s, [.success (.reading (sensorReading v now))])
  | .getHeading => (sensorStop sn.id s, [.success (.heading (sensorHeading v now))])
  | .watchReadings => (s, [.success (.reading (sensorReading v now))])
  | .watchHeading => (s, [.success (.heading (sensorHeading v now))])
  | .getFieldStrength => (sensorStop sn.id s, [.success (.number (round (sensorMagnitude v)))])

/-- The `error` listener a sensor carries, run with `event.error.message`. -/
def onError (sn : Sensor) (message : String) (s : State) : State × List Call :=
  match sn.listener with
  | .getReading => (s, [.error (orDefault message "Magnetometer error")])
  | .getHeading => (s, [.error (orDefault message "Orientation sensor error")])
  | .watchReadings => (s, [.error (orDefault message "Magnetometer error")])
  | .watchHeading => (s, [.error (orDefault message "Orientation sensor error")])
  | .getFieldStrength => (s, [.success (.number 54)])

/-- Assignment to the variable captured by the body of the first timer with this id. -/
def setTimerBody (id : ℕ) (b : TimerBody) : List Timer → List Timer
  | [] => []
  | t :: ts => if t.id = id then { t with body := b } :: ts else t :: setTimerBody id b ts

/-- The body of a timer, run once. -/
noncomputable def onTick (t : Timer) (now : ℕ) (s : State) : State × List Call :=
  match t.body with
  | .mockWatch angle =>
    let angle := angle + 0.1
    ({ s with timers := setTimerBody t.id (.mockWatch angle) s.timers },
      [.success (.reading (mockWatchReading angle now))])
  | .mockHeading heading =>
    let heading := (heading + 1) % 360
    ({ s with timers := setTimerBody t.id (.mockHeading heading) s.timers },
      [.success (.heading (mockHeadingReading heading now))])

/-- Delivery of one platform event: the listener of the live sensor, or the body of
the live timer, with this id is run; an event for a stopped sensor or a cleared
timer runs nothing. -/
noncomputable def dispatch (now : ℕ) (e : Event) (s : State) : State × List Call :=
  match e with
  | .reading id v =>
    match s.sensors.find? fun sn => sn.id = id with
    | some sn => onReading sn v now s
    | none => (s, [])
  | .error id message =>
    match s.sensors.find? fun sn => sn.id = id with
    | some sn => onError sn message s
    | none => (s, [])
  | .tick id =>
    match s.timers.find? fun t => t.id = id with
    | some t => onTick t now s
    | none => (s, [])

/-- The state after the timer with this id has fired `n` times in a row, the
`j`-th firing (from 0) at time `clock j`. -/
noncomputable def runTicks (clock : ℕ → ℕ) (id : ℕ) : ℕ → State → State
  | 0, s => s
  | n + 1, s => (dispatch (clock n) (.tick id) (runTicks clock id n s)).1

/-- The calls made by the `k`-th firing (from 0) of the timer with this id. -/
noncomputable def emission (clock : ℕ → ℕ) (id : ℕ) (k : ℕ) (s : State) : List Call :=
  (dispatch (clock k) (.tick id) (runTicks clock id k s)).2

/-! ## Live emitters -/

/-- The two watch types. -/
inductive WatchType where
  | magnetic
  | heading
  deriving DecidableEq

/-- Whether a sensor carries the watch listeners of this type. -/
def Sensor.emitsFor (sn : Sensor) : WatchType → Bool
  | .magnetic => sn.listener = .watchReadings
  | .heading => sn.listener = .watchHeading

/-- Whether a timer runs the synthetic generator of this type. -/
def Timer.emitsFor (t : Timer) : WatchType → Bool
  | .magnetic => match t.body with
    | .mockWatch _ => true
    | .mockHeading _ => false
  | .heading => match t.body with
    | .mockWatch _ => false
    | .mockHeading _ => true

/-- The live emitters of a watch type: the started, not stopped sensors with its
watch listeners and the set, not cleared timers with its generator. -/
def liveEmitters (ty : WatchType) (s : State) : List Handle :=
  ((s.sensors.filter fun sn => sn.emitsFor ty).map fun sn => Handle.sensor sn.id) ++
    ((s.timers.filter fun t => t.emitsFor ty).map fun t => Handle.timer t.id)

/-- The session variable of a watch type. -/
def State.slot (s : State) : WatchType → Option Handle
  | .magnetic => s.watchInterval
  | .heading => s.watchHeadingInterval

/-- A window that exposes both sensor classes, both working. -/
def hardwareWindow : Window :=
  { hasMagnetometer := true, hasAbsoluteOrientationSensor := true,
    magnetometer := .started, orientation := .started }

/-- A window that exposes neither sensor class. -/
def bareWindow : Window :=
  { hasMagnetometer := false, hasAbsoluteOrientationSensor := false,
    magnetometer := .ctorThrows, orientation := .ctorThrows }

/-! ## Runs of the module -/

/-- The number that identifies the resource a handle refers to. -/
def Handle.id : Handle → ℕ
  | .sensor id => id
  | .timer id => id

/-- Whether the resource a handle refers to is live: the sensor is started and
not stopped, the timer is set and not cleared. -/
def Handle.live : Handle → State → Bool
  | .sensor id, s => s.sensors.any fun sn => sn.id = id
  | .timer id, s => s.timers.any fun t => t.id = id

/-- One thing that happens to the loaded module: a call of one of the functions
of `module.exports`, or the delivery of a platform event. -/
inductive Step where
  | isAvailable (w : Window)
  | getReading (w : Window) (now : ℕ)
  | getHeading (w : Window) (now : ℕ)
  | watchReadings (w : Window) (args : Option (List ℝ))
  | stopWatch
  | watchHeading (w : Window) (args : Option (List ℝ))
  | stopWatchHeading
  | getMagnetometerInfo (w : Window) (now : ℕ)
  | getAccuracy
  | isCalibrationNeeded
  | getFieldStrength (w : Window)
  | event (now : ℕ) (e : Event)

/-- The effect of one step. -/
noncomputable def runStep : Step → State → State × List Call
  | .isAvailable w, s => isAvailable w s
  | .getReading w now, s => getReading w now s
  | .getHeading w now, s => getHeading w now s
  | .watchReadings w args, s => watchReadings w args s
  | .stopWatch, s => stopWatch s
  | .watchHeading w args, s => watchHeading w args s
  | .stopWatchHeading, s => stopWatchHeading s
  | .getMagnetometerInfo w now, s => getMagnetometerInfo w now s
  | .getAccuracy, s => getAccuracy s
  | .isCalibrationNeeded, s => isCalibrationNeeded s
  | .getFieldStrength w, s => getFieldStrength w s
  | .event now e, s => dispatch now e s

/-- The state after a sequence of steps, the first step first. -/
noncomputable def runSteps : List Step → State → State
  | [], s => s
  | st :: rest, s => runSteps rest (runStep st s).1

/-- The handles stored in the two session variables were allocated in the past
and are not one and the same handle. -/
def SlotsDistinct (s : State) : Prop :=
  (∀ h, s.watchInterval = some h → h.id ≤ s.nextId) ∧
    (∀ h, s.watchHeadingInterval = some h → h.id ≤ s.nextId) ∧
    ∀ h, s.watchInterval = some h → s.watchHeadingInterval ≠ some h

/-! ## Replacing a watch -/

/-- C1, at the failing input: with a working Magnetometer, `watchReadings` called
twice from the initial state leaves two live magnetic emitters. The second call
runs `clearInterval` on the first sensor object, which cancels nothing, and never
calls its `stop()`: the first sensor is still started and its `reading` listener
still calls the first success continuation. -/
theorem watchReadings_twice_two_emitters :
    (watchReadings hardwareWindow (some [100]) State.init).1.watchInterval
        = some (Handle.sensor 1) ∧
      liveEmitters .magnetic (watchReadings hardwareWindow (some [100]) State.init).1
        = [Handle.sensor 1] ∧
      (watchReadings hardwareWindow (some [100])
          (watchReadings hardwareWindow (some [100]) State.init).1).1.watchInterval
        = some (Handle.sensor 2) ∧
      liveEmitters .magnetic (watchReadings hardwareWindow (some [100])
          (watchReadings hardwareWindow (some [100]) State.init).1).1
        = [Handle.sensor 2, Handle.sensor 1] ∧
      ∀ now v, (dispatch now (.reading 1 v) (watchReadings hardwareWindow (some [100])
          (watchReadings hardwareWindow (some [100]) State.init).1).1).2
        = [Call.success (.reading (sensorReading v now))] := by
  simp [watchReadings, hardwareWindow, State.init, truthy, clearInterval, startSensor,
    liveEmitters, Sensor.emitsFor, Timer.emitsFor, dispatch, onReading]

/-- A live sensor with the watch listeners of a type is among its live emitters. -/
theorem sensor_mem_liveEmitters (ty : WatchType) (s : State) (sn : Sensor)
    (h1 : sn ∈ s.sensors) (h2 : sn.emitsFor ty = true) :
    Handle.sensor sn.id ∈ liveEmitters ty s := by
  simp only [liveEmitters, List.mem_append, List.mem_map, List.mem_filter]
  exact Or.inl ⟨sn, ⟨h1, h2⟩, rfl⟩

/-- A live timer with the generator of a type is among its live emitters. -/
theorem timer_mem_liveEmitters (ty : WatchType) (s : State) (t : Timer)
    (h1 : t ∈ s.timers) (h2 : t.emitsFor ty = true) :
    Handle.timer t.id ∈ liveEmitters ty s := by
  simp only [liveEmitters, List.mem_append, List.mem_map, List.mem_filter]
  exact Or.inr ⟨t, ⟨h1, h2⟩, rfl⟩

/-- No emitter of a type is live when no live sensor and no live timer emits for it. -/
theorem liveEmitters_eq_nil (ty : WatchType) (s : State)
    (h1 : ∀ sn ∈ s.sensors, sn.emitsFor ty = false)
    (h2 : ∀ t ∈ s.timers, t.emitsFor ty = false) :
    liveEmitters ty s = [] := by
  simp only [liveEmitters, List.append_eq_nil, List.map_eq_nil_iff, List.filter_eq_nil_iff]
  exact ⟨fun sn hsn => by simp [h1 sn hsn], fun t ht => by simp [h2 t ht]⟩

/-- The release step shared by `stopWatch`, `watchHeading` and `stopWatchHeading`
(`stop()` if the handle has it, `clearInterval` otherwise) leaves no live emitter
when the handle was the only one. -/
theorem liveEmitters_after_release (ty : WatchType) (s : State) (h : Handle)
    (hs : liveEmitters ty s = [h]) :
    liveEmitters ty (if h.hasStop then h.stop s else clearInterval h s) = [] := by
  cases h with
  | sensor id =>
    apply liveEmitters_eq_nil
    · intro sn hsn
      simp only [Handle.hasStop, if_true, Handle.stop, sensorStop, List.mem_filter] at hsn
      by_contra hc
      have hm := sensor_mem_liveEmitters ty s sn hsn.1 (by simpa using hc)
      rw [hs] at hm
      simp at hm
      simp [hm] at hsn
    · intro t ht
      simp only [Handle.hasStop, if_true, Handle.stop, sensorStop] at ht
      by_contra hc
      have hm := timer_mem_liveEmitters ty s t ht (by simpa using hc)
      rw [hs] at hm
      simp at hm
  | timer id =>
    apply liveEmitters_eq_nil
    · intro sn hsn
      simp only [Handle.hasStop, clearInterval] at hsn
      by_contra hc
      have hm := sensor_mem_liveEmitters ty s sn (by simpa using hsn) (by simpa using hc)
      rw [hs] at hm
      simp at hm
    · intro t ht
      simp only [Handle.hasStop, clearInterval] at ht
      have ht2 : t ∈ s.timers ∧ t.id ≠ id := by simpa [List.mem_filter] using ht
      by_contra hc
      have hm := timer_mem_liveEmitters ty s t ht2.1 (by simpa using hc)
      rw [hs] at hm
      simp at hm
      exact ht2.2 hm

/-- With no live emitter of a type, a state that adds one emitting sensor has
exactly that emitter. -/
theorem liveEmitters_add_sensor (ty : WatchType) (s t : State) (sn : Sensor)
    (h : liveEmitters ty s = []) (hsn : sn.emitsFor ty = true)
    (h1 : t.sensors = sn :: s.sensors) (h2 : t.timers = s.timers) :
    liveEmitters ty t = [Handle.sensor sn.id] := by
  simp only [liveEmitters, List.append_eq_nil, List.map_eq_nil_iff] at h
  simp only [liveEmitters, h1, h2, List.filter_cons, hsn, if_true]
  rw [h.1, h.2]
  rfl

/-- With no live emitter of a type, a state that adds one emitting timer has
exactly that emitter. -/
theorem liveEmitters_add_timer (ty : WatchType) (s t : State) (tm : Timer)
    (h : liveEmitters ty s = []) (htm : tm.emitsFor ty = true)
    (h1 : t.sensors = s.sensors) (h2 : t.timers = tm :: s.timers) :
    liveEmitters ty t = [Handle.timer tm.id] := by
  simp only [liveEmitters, List.append_eq_nil, List.map_eq_nil_iff] at h
  simp only [liveEmitters, h1, h2, List.filter_cons, htm, if_true]
  rw [h.1, h.2]
  rfl

/-- The sibling path: `watchHeading` releases the prior heading session, whatever
its kind. From a state whose live heading emitters are exactly the content of
`watchHeadingInterval`, it leads to a state with exactly one live heading
emitter, the one stored in `watchHeadingInterval`. -/
theorem watchHeading_single_emitter (w : Window) (args : Option (List ℝ)) (s : State)
    (h : liveEmitters .heading s = s.watchHeadingInterval.toList) :
    liveEmitters .heading (watchHeading w args s).1
        = (watchHeading w args s).1.watchHeadingInterval.toList ∧
      (liveEmitters .heading (watchHeading w args s).1).length = 1 := by
  have h1 : liveEmitters .heading
      (if truthy s.watchHeadingInterval then
        match s.watchHeadingInterval with
        | some h => if h.hasStop then h.stop s else clearInterval h s
        | none => s
      else s) = [] := by
    cases hw : s.watchHeadingInterval with
    | none => simpa [truthy, hw] using h
    | some hd =>
      simp only [truthy, if_true]
      exact liveEmitters_after_release _ s hd (by simpa [hw] using h)
  unfold watchHeading
  simp only
  generalize (if truthy s.watchHeadingInterval then
        match s.watchHeadingInterval with
        | some h => if h.hasStop then h.stop s else clearInterval h s
        | none => s
      else s) = s1 at h1 ⊢
  have hmk : ∀ f, liveEmitters .heading (startMockHeadingWatch f s1)
        = (startMockHeadingWatch f s1).watchHeadingInterval.toList ∧
      (liveEmitters .heading (startMockHeadingWatch f s1)).length = 1 := by
    intro f
    have e := liveEmitters_add_timer .heading s1 (startMockHeadingWatch f s1)
      { id := s1.nextId + 1, delay := f, body := .mockHeading 180 } h1 rfl rfl rfl
    rw [e]
    exact ⟨rfl, rfl⟩
  split
  · split
    · have e := liveEmitters_add_sensor .heading s1
        { (startSensor .watchHeading (1000 / frequencyArg args) s1).2 with
          watchHeadingInterval := some (.sensor (s1.nextId + 1)) }
        { id := s1.nextId + 1, listener := .watchHeading,
          frequency := 1000 / frequencyArg args } h1 rfl rfl rfl
      constructor
      · exact e
      · exact congrArg List.length e
    · exact hmk _
  · exact hmk _

/-- Witness of `watchHeading_single_emitter`: a second `watchHeading` on a working
orientation sensor stops the first sensor. -/
theorem watchHeading_single_emitter_witness :
    liveEmitters .heading
        (watchHeading hardwareWindow none (watchHeading hardwareWindow none State.init).1).1
      = (watchHeading hardwareWindow none
          (watchHeading hardwareWindow none State.init).1).1.watchHeadingInterval.toList ∧
    (liveEmitters .heading
        (watchHeading hardwareWindow none
          (watchHeading hardwareWindow none State.init).1).1).length = 1 :=
  watchHeading_single_emitter hardwareWindow none
    (watchHeading hardwareWindow none State.init).1
    (by simp [watchHeading, hardwareWindow, State.init, truthy, startSensor,
          liveEmitters, Sensor.emitsFor])

/-- The cases in which `watchReadings` does release the prior magnetic session:
from a state whose live magnetic emitters are exactly the content of
`watchInterval`, and whose `watchInterval` is `null` or a timer id (not a sensor
object), it leads to a state with exactly one live magnetic emitter. -/
theorem watchReadings_single_emitter (w : Window) (args : Option (List ℝ)) (s : State)
    (h : liveEmitters .magnetic s = s.watchInterval.toList)
    (hns : ∀ id, s.watchInterval ≠ some (.sensor id)) :
    liveEmitters .magnetic (watchReadings w args s).1
        = (watchReadings w args s).1.watchInterval.toList ∧
      (liveEmitters .magnetic (watchReadings w args s).1).length = 1 := by
  have h1 : liveEmitters .magnetic
      (if truthy s.watchInterval then
        match s.watchInterval with
        | some h => clearInterval h s
        | none => s
      else s) = [] := by
    cases hw : s.watchInterval with
    | none => simpa [truthy, hw] using h
    | some hd =>
      cases hd with
      | sensor id => exact absurd hw (hns id)
      | timer id =>
        simp only [truthy, if_true]
        have := liveEmitters_after_release .magnetic s (.timer id) (by simpa [hw] using h)
        simpa [Handle.hasStop] using this
  unfold watchReadings
  simp only
  generalize (if truthy s.watchInterval then
        match s.watchInterval with
        | some h => clearInterval h s
        | none => s
      else s) = s1 at h1 ⊢
  have hmk : ∀ f, liveEmitters .magnetic (startMockWatch f s1)
        = (startMockWatch f s1).watchInterval.toList ∧
      (liveEmitters .magnetic (startMockWatch f s1)).length = 1 := by
    intro f
    have e := liveEmitters_add_timer .magnetic s1 (startMockWatch f s1)
      { id := s1.nextId + 1, delay := f, body := .mockWatch 0 } h1 rfl rfl rfl
    rw [e]
    exact ⟨rfl, rfl⟩
  split
  · split
    · have e := liveEmitters_add_sensor .magnetic s1
        { (startSensor .watchReadings (1000 / frequencyArg args) s1).2 with
          watchInterval := some (.sensor (s1.nextId + 1)) }
        { id := s1.nextId + 1, listener := .watchReadings,
          frequency := 1000 / frequencyArg args } h1 rfl rfl rfl
      constructor
      · exact e
      · exact congrArg List.length e
    · exact hmk _
  · exact hmk _

/-- Witness of `watchReadings_single_emitter`: a second `watchReadings` without
the capability clears the first synthetic timer. -/
theorem watchReadings_single_emitter_witness :
    liveEmitters .magnetic
        (watchReadings bareWindow none (watchReadings bareWindow none State.init).1).1
      = (watchReadings bareWindow none
          (watchReadings bareWindow none State.init).1).1.watchInterval.toList ∧
    (liveEmitters .magnetic
        (watchReadings bareWindow none
          (watchReadings bareWindow none State.init).1).1).length = 1 :=
  watchReadings_single_emitter bareWindow none
    (watchReadings bareWindow none State.init).1
    (by simp [watchReadings, bareWindow, State.init, truthy, startMockWatch, setInterval,
          liveEmitters, Timer.emitsFor])
    (by simp [watchReadings, bareWindow, State.init, truthy, startMockWatch, setInterval])

/-! ## Single-shot operations when the hardware fails -/

/-- C2, counterexample: with a working Magnetometer class, `getReading` starts a
sensor and calls nothing; when that sensor then fires its `error` event, the
listener calls the error continuation with the event's message and the success
continuation is not called. -/
theorem getReading_error_event_reaches_errorCallback :
    (getReading hardwareWindow 0 State.init).2 = [] ∧
      (dispatch 0 (.error 1 "sensor failed") (getReading hardwareWindow 0 State.init).1).2
        = [Call.error "sensor failed"] := by
  simp [getReading, hardwareWindow, State.init, startSensor, dispatch, onError, orDefault]

/-- C2, amended: when the capability is absent or acquisition throws, each of
`getReading`, `getHeading`, `getFieldStrength` calls the success continuation once
with its mock value, calls no error continuation and leaves the state unchanged.
When the sensor is started and later fires its `error` event, `getFieldStrength`
answers the mock value 54 through the success continuation, while `getReading` and
`getHeading` call the error continuation with the event's message, or with their
default message when it is empty. -/
theorem single_shot_failure_modes (w : Window) (now : ℕ) (s : State) :
    ((w.hasMagnetometer = false ∨ w.magnetometer ≠ .started) →
        getReading w now s
          = (s, [Call.success (.reading
              { x := 25.5, y := -12.3, z := 45.8, magnitude := 54.2, timestamp := now })]) ∧
        getFieldStrength w s = (s, [Call.success (.number 54)])) ∧
      ((w.hasAbsoluteOrientationSensor = false ∨ w.orientation ≠ .started) →
        getHeading w now s
          = (s, [Call.success (.heading
              { magneticHeading := 180, trueHeading := 180, headingAccuracy := -1,
                timestamp := now })])) ∧
      ((w.hasMagnetometer = true ∧ w.magnetometer = .started) → ∀ t message,
        (getReading w now s).2 = [] ∧
        (dispatch t (.error (s.nextId + 1) message) (getReading w now s).1).2
          = [Call.error (if message = "" then "Magnetometer error" else message)] ∧
        (getFieldStrength w s).2 = [] ∧
        (dispatch t (.error (s.nextId + 1) message) (getFieldStrength w s).1).2
          = [Call.success (.number 54)]) ∧
      ((w.hasAbsoluteOrientationSensor = true ∧ w.orientation = .started) → ∀ t message,
        (getHeading w now s).2 = [] ∧
        (dispatch t (.error (s.nextId + 1) message) (getHeading w now s).1).2
          = [Call.error (if message = "" then "Orientation sensor error" else message)]) := by
  refine ⟨?_, ?_, ?_, ?_⟩
  · rintro (h | h)
    · simp [getReading, getFieldStrength, h, mockReading]
    · cases hm : w.magnetometer <;> simp_all [getReading, getFieldStrength, mockReading]
  · rintro (h | h)
    · simp [getHeading, h, mockHeading]
    · cases hm : w.orientation <;> simp_all [getHeading, mockHeading]
  · rintro ⟨h1, h2⟩ t message
    simp [getReading, getFieldStrength, h1, h2, startSensor, dispatch, onError, orDefault]
  · rintro ⟨h1, h2⟩ t message
    simp [getHeading, h1, h2, startSensor, dispatch, onError, orDefault]

/-- Witness of `single_shot_failure_modes`: the absent-capability parts at a bare
window, the `error` event parts at a window with working sensors. -/
theorem single_shot_failure_modes_witness :
    (getReading bareWindow 7 State.init
        = (State.init, [Call.success (.reading
            { x := 25.5, y := -12.3, z := 45.8, magnitude := 54.2, timestamp := 7 })]) ∧
      getFieldStrength bareWindow State.init = (State.init, [Call.success (.number 54)])) ∧
    getHeading bareWindow 7 State.init
        = (State.init, [Call.success (.heading
            { magneticHeading := 180, trueHeading := 180, headingAccuracy := -1,
              timestamp := 7 })]) ∧
    (dispatch 9 (.error 1 "") (getReading hardwareWindow 7 State.init).1).2
        = [Call.error "Magnetometer error"] ∧
    (dispatch 9 (.error 1 "") (getFieldStrength hardwareWindow State.init).1).2
        = [Call.success (.number 54)] ∧
    (dispatch 9 (.error 1 "") (getHeading hardwareWindow 7 State.init).1).2
        = [Call.error "Orientation sensor error"] :=
  ⟨(single_shot_failure_modes bareWindow 7 State.init).1 (Or.inl rfl),
   (single_shot_failure_modes bareWindow 7 State.init).2.1 (Or.inl rfl),
   ((single_shot_failure_modes hardwareWindow 7 State.init).2.2.1 ⟨rfl, rfl⟩ 9 "").2.1,
   ((single_shot_failure_modes hardwareWindow 7 State.init).2.2.1 ⟨rfl, rfl⟩ 9 "").2.2.2,
   ((single_shot_failure_modes hardwareWindow 7 State.init).2.2.2 ⟨rfl, rfl⟩ 9 "").2⟩

/-! ## Magnitude of the delivered readings -/

/-- The object built by a `reading` listener carries the Euclidean norm of its
three components as magnitude. -/
theorem sensorReading_magnitude (v : SensorValues) (now : ℕ) :
    (sensorReading v now).magnitude
      = Real.sqrt ((sensorReading v now).x ^ 2 + (sensorReading v now).y ^ 2
          + (sensorReading v now).z ^ 2) := by
  simp [sensorReading, pow_two]

/-- C3, counterexample: without the Magnetometer capability `getReading` delivers
the fixed mock, whose magnitude 54.2 is more than 1e-6 away from the norm
`sqrt (25.5² + 12.3² + 45.8²) = sqrt 2899.18 < 54` of its components. -/
theorem mockReading_magnitude_not_norm :
    (getReading bareWindow 0 State.init).2 = [Call.success (.reading (mockReading 0))] ∧
      ¬ |(mockReading 0).magnitude
          - Real.sqrt ((mockReading 0).x ^ 2 + (mockReading 0).y ^ 2 + (mockReading 0).z ^ 2)|
        < 0.000001 := by
  refine ⟨by simp [getReading, bareWindow], ?_⟩
  have h : Real.sqrt ((25.5 : ℝ) ^ 2 + (-12.3) ^ 2 + 45.8 ^ 2) ≤ 54 := by
    rw [Real.sqrt_le_left (by norm_num)]
    norm_num
  simp only [mockReading, not_lt]
  rw [abs_of_nonneg (by linarith)]
  linarith

/-- C3, amended: every reading that the `reading` listener of a hardware sensor
delivers has magnitude equal to `sqrt (x² + y² + z²)`, hence within 1e-6 of it; and
the sensors started by `getReading` and `watchReadings` deliver exactly one such
reading per `reading` event. -/
theorem hardware_reading_magnitude (now id : ℕ) (v : SensorValues) (s : State) :
    (∀ sn, (s.sensors.find? fun sn => sn.id = id) = some sn →
        sn.listener = .getReading ∨ sn.listener = .watchReadings →
        (dispatch now (.reading id v) s).2
          = [Call.success (.reading (sensorReading v now))]) ∧
      ∀ r, Call.success (.reading r) ∈ (dispatch now (.reading id v) s).2 →
        r.magnitude = Real.sqrt (r.x ^ 2 + r.y ^ 2 + r.z ^ 2) ∧
        |r.magnitude - Real.sqrt (r.x ^ 2 + r.y ^ 2 + r.z ^ 2)| < 0.000001 := by
  constructor
  · intro sn hsn hl
    rcases hl with hl | hl <;> simp [dispatch, hsn, onReading, hl]
  · intro r hr
    have key : r = sensorReading v now := by
      simp only [dispatch] at hr
      split at hr
      · rename_i sn _
        simp only [onReading] at hr
        split at hr <;> simp at hr <;> exact hr
      · simp at hr
    have hm := sensorReading_magnitude v now
    rw [← key] at hm
    refine ⟨hm, ?_⟩
    rw [← hm, sub_self, abs_zero]
    norm_num

/-- Witness of `hardware_reading_magnitude`: the sensor started by `watchReadings`
from the initial state, at a `reading` event with values 3, 4 and `null`. -/
theorem hardware_reading_magnitude_witness :
    (dispatch 5 (.reading 1 { x := some 3, y := some 4, z := none, quaternion := none })
        (watchReadings hardwareWindow none State.init).1).2
      = [Call.success (.reading (sensorReading
          { x := some 3, y := some 4, z := none, quaternion := none } 5))] ∧
    (sensorReading { x := some 3, y := some 4, z := none, quaternion := none } 5).magnitude
      = Real.sqrt
          ((sensorReading { x := some 3, y := some 4, z := none, quaternion := none } 5).x ^ 2
          + (sensorReading { x := some 3, y := some 4, z := none, quaternion := none } 5).y ^ 2
          + (sensorReading { x := some 3, y := some 4, z := none, quaternion := none } 5).z ^ 2) :=
  have h := hardware_reading_magnitude 5 1
    { x := some 3, y := some 4, z := none, quaternion := none }
    (watchReadings hardwareWindow none State.init).1
  have h1 := h.1 { id := 1, listener := .watchReadings, frequency := 1000 / 100 }
    (by simp [watchReadings, hardwareWindow, State.init, truthy, startSensor, frequencyArg])
    (Or.inr rfl)
  ⟨h1, (h.2 _ (by rw [h1]; exact List.mem_singleton.mpr rfl)).1⟩

/-! ## The synthetic generators -/

/-- A tick of the timer at the head of the timer list runs its body and stores the
new value of the captured variable. -/
theorem dispatch_tick_head (now : ℕ) (s : State) (t : Timer) (ts : List Timer)
    (hs : s.timers = t :: ts) :
    dispatch now (.tick t.id) s = onTick t now s := by
  simp [dispatch, hs]

/-- After `k` ticks in a row, the heading generator at the head of the timer list,
started at `h0`, holds `(h0 + k) % 360`. -/
theorem runTicks_mockHeading (clock : ℕ → ℕ) (id : ℕ) (d : ℝ) (h0 : ℕ) (ts : List Timer)
    (s : State) (hs : s.timers = { id := id, delay := d, body := .mockHeading h0 } :: ts)
    (hh : h0 < 360) (k : ℕ) :
    (runTicks clock id k s).timers
      = { id := id, delay := d, body := .mockHeading ((h0 + k) % 360) } :: ts := by
  induction k with
  | zero => simpa [runTicks, Nat.mod_eq_of_lt hh] using hs
  | succ k ih =>
    have h := dispatch_tick_head (clock k) (runTicks clock id k s) _ _ ih
    simp only at h
    simp only [runTicks, h, onTick, ih, setTimerBody, if_true]
    have : ((h0 + k) % 360 + 1) % 360 = (h0 + (k + 1)) % 360 := by omega
    rw [this]

/-- After `k` ticks in a row, the magnetic generator at the head of the timer list,
started at phase `a0`, holds phase `a0 + 0.1 * k`. -/
theorem runTicks_mockWatch (clock : ℕ → ℕ) (id : ℕ) (d : ℝ) (a0 : ℝ) (ts : List Timer)
    (s : State) (hs : s.timers = { id := id, delay := d, body := .mockWatch a0 } :: ts)
    (k : ℕ) :
    (runTicks clock id k s).timers
      = { id := id, delay := d, body := .mockWatch (a0 + 0.1 * k) } :: ts := by
  induction k with
  | zero => simpa [runTicks] using hs
  | succ k ih =>
    have h := dispatch_tick_head (clock k) (runTicks clock id k s) _ _ ih
    simp only at h
    simp only [runTicks, h, onTick, ih, setTimerBody, if_true]
    have : a0 + 0.1 * (k : ℝ) + 0.1 = a0 + 0.1 * ((k + 1 : ℕ) : ℝ) := by
      push_cast
      ring
    rw [this]

/-- C4, counterexample: the first emission of the synthetic heading watch started
from the initial state carries heading 181, not 180: the timer body increments
`heading` before it calls the success continuation. -/
theorem startMockHeadingWatch_first_emission_181 :
    emission (fun _ => 0) 1 0 (startMockHeadingWatch 100 State.init)
        = [Call.success (.heading
            { magneticHeading := 181, trueHeading := 181, headingAccuracy := -1,
              timestamp := 0 })] ∧
      emission (fun _ => 0) 1 0 (startMockHeadingWatch 100 State.init)
        ≠ [Call.success (.heading
            { magneticHeading := 180, trueHeading := 180, headingAccuracy := -1,
              timestamp := 0 })] := by
  have h : emission (fun _ => 0) 1 0 (startMockHeadingWatch 100 State.init)
        = [Call.success (.heading
            { magneticHeading := 181, trueHeading := 181, headingAccuracy := -1,
              timestamp := 0 })] := by
    simp [emission, runTicks, startMockHeadingWatch, setInterval, State.init, dispatch,
      onTick, mockHeadingReading]
  refine ⟨h, ?_⟩
  rw [h]
  simp

/-- C4, amended: for the timer set by `startMockHeadingWatch`, the `k`-th emission
(the first one is `k = 0`) is one success call with
`magneticHeading = trueHeading = (181 + k) mod 360`: the sequence is
181, 182, ..., 359, 0, 1, ... -/
theorem startMockHeadingWatch_emission (frequency : ℝ) (s : State) (clock : ℕ → ℕ) (k : ℕ) :
    emission clock (s.nextId + 1) k (startMockHeadingWatch frequency s)
      = [Call.success (.heading
          { magneticHeading := ((181 + k) % 360 : ℕ), trueHeading := ((181 + k) % 360 : ℕ),
            headingAccuracy := -1, timestamp := clock k })] := by
  have hs : (startMockHeadingWatch frequency s).timers
      = { id := s.nextId + 1, delay := frequency, body := .mockHeading 180 } :: s.timers := by
    simp [startMockHeadingWatch, setInterval]
  have ih := runTicks_mockHeading clock (s.nextId + 1) frequency 180 s.timers _ hs
    (by norm_num) k
  have h := dispatch_tick_head (clock k) _ _ _ ih
  simp only at h
  have e : ((180 + k) % 360 + 1) % 360 = (181 + k) % 360 := by omega
  simp only [emission, h, onTick, mockHeadingReading, e]

/-- C10: for the timer set by `startMockWatch`, the phase angle starts at 0, is
`0.1 * n` after `n` ticks (so each tick adds exactly 0.1), and the `n`-th emission
(`n ≥ 1`) is one success call with `x = 25.5 + 5 sin a`, `y = -12.3 + 5 cos a`,
`z = 45.8 + 3 sin (0.5 a)`, `magnitude = 54.2 + 2 sin a` at `a = 0.1 * n`. -/
theorem startMockWatch_emission (frequency : ℝ) (s : State) (clock : ℕ → ℕ) :
    (startMockWatch frequency s).timers
        = { id := s.nextId + 1, delay := frequency, body := .mockWatch 0 } :: s.timers ∧
      (∀ n : ℕ, (runTicks clock (s.nextId + 1) n (startMockWatch frequency s)).timers
        = { id := s.nextId + 1, delay := frequency, body := .mockWatch (0.1 * n) }
            :: s.timers) ∧
      ∀ n : ℕ, 1 ≤ n →
        emission clock (s.nextId + 1) (n - 1) (startMockWatch frequency s)
          = [Call.success (.reading
              { x := 25.5 + 5 * Real.sin (0.1 * n),
                y := -12.3 + 5 * Real.cos (0.1 * n),
                z := 45.8 + 3 * Real.sin (0.5 * (0.1 * n)),
                magnitude := 54.2 + 2 * Real.sin (0.1 * n),
                timestamp := clock (n - 1) })] := by
  have hs : (startMockWatch frequency s).timers
      = { id := s.nextId + 1, delay := frequency, body := .mockWatch 0 } :: s.timers := by
    simp [startMockWatch, setInterval]
  have hk := fun k => runTicks_mockWatch clock (s.nextId + 1) frequency 0 s.timers _ hs k
  refine ⟨hs, fun n => by simpa using hk n, ?_⟩
  intro n hn
  obtain ⟨m, rfl⟩ : ∃ m, n = m + 1 := ⟨n - 1, by omega⟩
  have h := dispatch_tick_head (clock m) _ _ _ (hk m)
  simp only at h
  have e : (0 : ℝ) + 0.1 * (m : ℝ) + 0.1 = 0.1 * ((m + 1 : ℕ) : ℝ) := by
    push_cast
    ring
  simp only [emission, Nat.add_sub_cancel, h, onTick, mockWatchReading, e]
  simp only [mul_comm]

/-- Witness of `startMockWatch_emission`: the first emission after `startMockWatch`
from the initial state, at phase `0.1 * 1`. -/
theorem startMockWatch_emission_witness :
    emission (fun _ => 0) (State.init.nextId + 1) (1 - 1) (startMockWatch 100 State.init)
      = [Call.success (.reading
          { x := 25.5 + 5 * Real.sin (0.1 * (1 : ℕ)),
            y := -12.3 + 5 * Real.cos (0.1 * (1 : ℕ)),
            z := 45.8 + 3 * Real.sin (0.5 * (0.1 * (1 : ℕ))),
            magnitude := 54.2 + 2 * Real.sin (0.1 * (1 : ℕ)),
            timestamp := 0 })] :=
  (startMockWatch_emission 100 State.init (fun _ => 0)).2.2 1 (le_refl 1)

/-! ## Conversion of a quaternion to a heading -/

/-- The angle `atan2 y x` lies in `(-π, π]`. -/
theorem atan2_mem_Ioc (y x : ℝ) : -Real.pi < atan2 y x ∧ atan2 y x ≤ Real.pi :=
  ⟨Complex.neg_pi_lt_arg _, Complex.arg_le_pi _⟩

/-- The value `atan2 y x` is what `Math.atan2` is specified to return over the
reals: 0 at the origin, and elsewhere the angle whose cosine and sine are those of
the direction of the point `(x, y)`. -/
theorem atan2_direction (y x : ℝ) :
    atan2 0 0 = 0 ∧
      (¬ (x = 0 ∧ y = 0) →
        Real.cos (atan2 y x) = x / Real.sqrt (x * x + y * y) ∧
        Real.sin (atan2 y x) = y / Real.sqrt (x * x + y * y)) := by
  constructor
  · have : (⟨0, 0⟩ : ℂ) = 0 := rfl
    rw [atan2, this, Complex.arg_zero]
  · intro h
    have hne : (⟨x, y⟩ : ℂ) ≠ 0 := by
      intro e
      exact h ⟨congrArg Complex.re e, congrArg Complex.im e⟩
    have ha : Complex.abs ⟨x, y⟩ = Real.sqrt (x * x + y * y) := by
      rw [Complex.abs_apply, Complex.normSq_mk]
    constructor
    · rw [atan2, Complex.cos_arg hne, ha]
    · rw [atan2, Complex.sin_arg, ha]

/-- On the unit circle `atan2` returns the angle itself, for an angle in `(-π, π]`. -/
theorem atan2_sin_cos (θ : ℝ) (h1 : -Real.pi < θ) (h2 : θ ≤ Real.pi) :
    atan2 (Real.sin θ) (Real.cos θ) = θ := by
  have e : (⟨Real.cos θ, Real.sin θ⟩ : ℂ) = Complex.cos θ + Complex.sin θ * Complex.I := by
    apply Complex.ext <;> simp [← Complex.ofReal_cos, ← Complex.ofReal_sin]
  rw [atan2, e]
  exact Complex.arg_cos_add_sin_mul_I ⟨h1, h2⟩

/-- The heading computed by `quaternionToHeading` lies between 0 and 360. The
upper bound is stated closed: it is the one that survives the rounding of
`heading + 360` in the source. -/
theorem quaternionToHeading_bounds (q : Option (List ℝ)) :
    0 ≤ quaternionToHeading q ∧ quaternionToHeading q ≤ 360 := by
  have hpi := Real.pi_pos
  unfold quaternionToHeading
  split
  · norm_num
  · rename_i l
    split
    · norm_num
    · obtain ⟨h1, h2⟩ := atan2_mem_Ioc
        (2 * (l.getD 3 0 * l.getD 2 0 + l.getD 0 0 * l.getD 1 0))
        (1 - 2 * (l.getD 1 0 * l.getD 1 0 + l.getD 2 0 * l.getD 2 0))
      simp only
      generalize atan2 (2 * (l.getD 3 0 * l.getD 2 0 + l.getD 0 0 * l.getD 1 0))
        (1 - 2 * (l.getD 1 0 * l.getD 1 0 + l.getD 2 0 * l.getD 2 0)) = yaw at h1 h2 ⊢
      have lo : -180 < yaw * 180 / Real.pi := by
        rw [lt_div_iff₀ hpi]
        linarith
      have hi : yaw * 180 / Real.pi ≤ 180 := by
        rw [div_le_iff₀ hpi]
        linarith
      split
      · constructor <;> linarith
      · constructor <;> linarith

/-- Every heading reading delivered to a success continuation, by `getHeading`
itself (the fixed mock) or by any listener or timer body (a hardware reading
converted by `quaternionToHeading`, a tick of the synthetic generator), has
`0 ≤ magneticHeading ≤ 360` and `magneticHeading = trueHeading`. -/
theorem delivered_heading_bounds :
    (∀ w now s h, Call.success (.heading h) ∈ (getHeading w now s).2 →
        0 ≤ h.magneticHeading ∧ h.magneticHeading ≤ 360 ∧
          h.magneticHeading = h.trueHeading) ∧
      ∀ now e s h, Call.success (.heading h) ∈ (dispatch now e s).2 →
        0 ≤ h.magneticHeading ∧ h.magneticHeading ≤ 360 ∧
          h.magneticHeading = h.trueHeading := by
  refine ⟨?_, ?_⟩
  · intro w now s h hh
    have key : h = mockHeading now := by
      simp only [getHeading] at hh
      split at hh
      · split at hh <;> simp_all
      · simpa using hh
    subst key
    simp only [mockHeading]
    norm_num
  · intro now e s h hh
    cases e with
    | reading id v =>
      have key : h = sensorHeading v now := by
        simp only [dispatch] at hh
        split at hh
        · simp only [onReading] at hh
          split at hh <;> simp at hh <;> exact hh
        · simp at hh
      subst key
      obtain ⟨h1, h2⟩ := quaternionToHeading_bounds v.quaternion
      exact ⟨h1, h2, rfl⟩
    | error id message =>
      simp only [dispatch] at hh
      split at hh
      · simp only [onError] at hh
        split at hh <;> simp at hh
      · simp at hh
    | tick id =>
      simp only [dispatch] at hh
      split at hh
      · simp only [onTick] at hh
        split at hh
        · simp at hh
        · rename_i t _ heading _
          have key : h = mockHeadingReading ((heading + 1) % 360) now := by simpa using hh
          subst key
          have hlt : (heading + 1) % 360 ≤ 360 := (Nat.mod_lt _ (by norm_num)).le
          refine ⟨by simp [mockHeadingReading], ?_, rfl⟩
          simp only [mockHeadingReading]
          exact_mod_cast hlt
      · simp at hh

/-- The binary64 numbers next to 360 are `360 - 2 ^ (-44)` and 360 itself, so a sum
`heading + 360` with `heading` negative and no further from 0 than `2 ^ (-46)`
rounds to 360: on such a `heading` the last step of `quaternionToHeading` returns
exactly 360 in the arithmetic of the source, which is not below 360. -/
theorem normalizeHeadingDouble_rounds_to_360 (heading : ℝ)
    (h1 : -(2 : ℝ) ^ (-46 : ℤ) ≤ heading) (h2 : heading < 0) :
    normalizeHeadingDouble heading = 360 ∧ ¬ normalizeHeadingDouble heading < 360 := by
  have hsmall : (2 : ℝ) ^ (-46 : ℤ) = 1 / 70368744177664 := by norm_num [zpow_neg]
  rw [hsmall] at h1
  have hpos : (0 : ℝ) < heading + 360 := by linarith
  have hlog : Int.log 2 |heading + 360| = 8 := by
    rw [abs_of_pos hpos]
    apply le_antisymm
    · have : Int.log 2 (heading + 360) < 9 := by
        rw [← Int.lt_zpow_iff_log_lt (by norm_num) hpos]
        norm_num
        linarith
      omega
    · rw [← Int.zpow_le_iff_le_log (by norm_num) hpos]
      norm_num
      linarith
  have hulp : (2 : ℝ) ^ ((8 : ℤ) - 52) = 1 / 17592186044416 := by norm_num [zpow_neg]
  have hfloor : ⌊(heading + 360) / (1 / 17592186044416)⌋ = 6333186975989759 := by
    rw [Int.floor_eq_iff]
    constructor
    · push_cast
      rw [le_div_iff₀ (by norm_num)]
      linarith
    · push_cast
      rw [div_lt_iff₀ (by norm_num)]
      linarith
  have hround : roundHalfEven ((heading + 360) / (1 / 17592186044416))
      = 6333186975989760 := by
    have hfrac : ¬ (heading + 360) / (1 / 17592186044416) - (6333186975989759 : ℤ)
        < 1 / 2 := by
      rw [not_lt]
      push_cast
      rw [le_sub_iff_add_le, le_div_iff₀ (by norm_num)]
      linarith
    have hfrac2 : 1 / 2 < (heading + 360) / (1 / 17592186044416)
        - (6333186975989759 : ℤ) := by
      push_cast
      rw [lt_sub_iff_add_lt, lt_div_iff₀ (by norm_num)]
      linarith
    simp only [roundHalfEven, hfloor, if_neg hfrac, if_pos hfrac2]
    norm_num
  have key : normalizeHeadingDouble heading = 360 := by
    simp only [normalizeHeadingDouble, if_pos h2, toDouble, if_neg hpos.ne', hlog, hulp,
      hround]
    norm_num
  exact ⟨key, by rw [key]; norm_num⟩

/-- The same at one value: the binary64 number `-(2 ^ (-60))`, about `-8.7e-19`, is
normalised to exactly 360. -/
theorem normalizeHeadingDouble_example :
    normalizeHeadingDouble (-(2 : ℝ) ^ (-60 : ℤ)) = 360 :=
  (normalizeHeadingDouble_rounds_to_360 (-(2 : ℝ) ^ (-60 : ℤ))
    (by
      rw [neg_le_neg_iff]
      exact zpow_le_zpow_right₀ (by norm_num) (by norm_num))
    (by
      rw [neg_lt_zero]
      positivity)).1

/-- C8: `quaternionToHeading` returns 0 when `q` is absent and when `q` has fewer
than 4 components. -/
theorem quaternionToHeading_malformed :
    quaternionToHeading none = 0 ∧
      ∀ q : List ℝ, q.length < 4 → quaternionToHeading (some q) = 0 := by
  refine ⟨rfl, ?_⟩
  intro q hq
  simp [quaternionToHeading, hq]

/-- Witness of `quaternionToHeading_malformed`: a quaternion with three components. -/
theorem quaternionToHeading_malformed_witness :
    quaternionToHeading (some [0, 0, 1]) = 0 :=
  quaternionToHeading_malformed.2 [0, 0, 1] (by decide)

/-- C9: for every angle `t` in `[0, 2π)` the pure-yaw quaternion
`[0, 0, sin (t/2), cos (t/2)]` is converted to `t * 180 / π` degrees, and the
identity orientation `[0, 0, 0, 1]` to 0. -/
theorem quaternionToHeading_pure_yaw :
    (∀ t : ℝ, 0 ≤ t → t < 2 * Real.pi →
        quaternionToHeading (some [0, 0, Real.sin (t / 2), Real.cos (t / 2)])
          = t * 180 / Real.pi) ∧
      quaternionToHeading (some [0, 0, 0, 1]) = 0 := by
  have hpi := Real.pi_pos
  have main : ∀ t : ℝ, 0 ≤ t → t < 2 * Real.pi →
      quaternionToHeading (some [0, 0, Real.sin (t / 2), Real.cos (t / 2)])
        = t * 180 / Real.pi := by
    intro t h0 h1
    have hs : 2 * (Real.cos (t / 2) * Real.sin (t / 2) + 0 * 0) = Real.sin t := by
      have := Real.sin_two_mul (t / 2)
      rw [show 2 * (t / 2) = t by ring] at this
      rw [this]
      ring
    have hc : 1 - 2 * (0 * 0 + Real.sin (t / 2) * Real.sin (t / 2)) = Real.cos t := by
      have := Real.cos_two_mul (t / 2)
      rw [show 2 * (t / 2) = t by ring] at this
      have h2 := Real.sin_sq_add_cos_sq (t / 2)
      rw [this]
      nlinarith
    have hq : quaternionToHeading (some [0, 0, Real.sin (t / 2), Real.cos (t / 2)])
        = if atan2 (Real.sin t) (Real.cos t) * 180 / Real.pi < 0
          then atan2 (Real.sin t) (Real.cos t) * 180 / Real.pi + 360
          else atan2 (Real.sin t) (Real.cos t) * 180 / Real.pi := by
      rw [← hs, ← hc]
      simp [quaternionToHeading]
    rw [hq]
    by_cases hle : t ≤ Real.pi
    · rw [atan2_sin_cos t (by linarith) hle]
      have : ¬ t * 180 / Real.pi < 0 := by
        rw [not_lt]
        positivity
      rw [if_neg this]
    · rw [not_le] at hle
      have e : atan2 (Real.sin t) (Real.cos t) = t - 2 * Real.pi := by
        rw [← Real.sin_sub_two_pi t, ← Real.cos_sub_two_pi t]
        exact atan2_sin_cos _ (by linarith) (by linarith)
      rw [e]
      have : (t - 2 * Real.pi) * 180 / Real.pi < 0 := by
        apply div_neg_of_neg_of_pos _ hpi
        nlinarith
      rw [if_pos this]
      field_simp
      ring
  refine ⟨main, ?_⟩
  have h := main 0 le_rfl (by positivity)
  simpa using h

/-- Witness of `quaternionToHeading_pure_yaw`: a quarter turn, `t = π / 2`. -/
theorem quaternionToHeading_pure_yaw_witness :
    quaternionToHeading (some [0, 0, Real.sin (Real.pi / 2 / 2), Real.cos (Real.pi / 2 / 2)])
      = Real.pi / 2 * 180 / Real.pi :=
  quaternionToHeading_pure_yaw.1 (Real.pi / 2) (by positivity)
    (by linarith [Real.pi_pos])

/-! ## Stopping a watch -/

/-- C6: `stopWatch` and `stopWatchHeading` make exactly one call, to the success
continuation, from every state. With their variable `null` they leave the state as
it is. With a sensor object in it they call its `stop()`, with a timer id they
clear that timer, and in both cases they set the variable to `null`; a second
call then changes nothing. -/
theorem stop_is_idempotent_success (s : State) :
    ((stopWatch s).2 = [Call.success .nothing] ∧
      (s.watchInterval = none → (stopWatch s).1 = s) ∧
      (∀ id, s.watchInterval = some (.sensor id) →
        (stopWatch s).1
          = { s with watchInterval := none,
                     sensors := s.sensors.filter fun sn => sn.id ≠ id }) ∧
      (∀ id, s.watchInterval = some (.timer id) →
        (stopWatch s).1
          = { s with watchInterval := none,
                     timers := s.timers.filter fun t => t.id ≠ id }) ∧
      (stopWatch s).1.watchInterval = none ∧
      stopWatch (stopWatch s).1 = ((stopWatch s).1, [Call.success .nothing])) ∧
    ((stopWatchHeading s).2 = [Call.success .nothing] ∧
      (s.watchHeadingInterval = none → (stopWatchHeading s).1 = s) ∧
      (∀ id, s.watchHeadingInterval = some (.sensor id) →
        (stopWatchHeading s).1
          = { s with watchHeadingInterval := none,
                     sensors := s.sensors.filter fun sn => sn.id ≠ id }) ∧
      (∀ id, s.watchHeadingInterval = some (.timer id) →
        (stopWatchHeading s).1
          = { s with watchHeadingInterval := none,
                     timers := s.timers.filter fun t => t.id ≠ id }) ∧
      (stopWatchHeading s).1.watchHeadingInterval = none ∧
      stopWatchHeading (stopWatchHeading s).1
        = ((stopWatchHeading s).1, [Call.success .nothing])) := by
  constructor
  · refine ⟨rfl, ?_, ?_, ?_, ?_, ?_⟩
    · intro h
      simp [stopWatch, h, truthy]
    · intro id h
      simp [stopWatch, h, truthy, Handle.hasStop, Handle.stop, sensorStop]
    · intro id h
      simp [stopWatch, h, truthy, Handle.hasStop, clearInterval]
    · cases h : s.watchInterval <;> simp [stopWatch, h, truthy]
    · cases h : s.watchInterval <;> simp [stopWatch, h, truthy]
  · refine ⟨rfl, ?_, ?_, ?_, ?_, ?_⟩
    · intro h
      simp [stopWatchHeading, h, truthy]
    · intro id h
      simp [stopWatchHeading, h, truthy, Handle.hasStop, Handle.stop, sensorStop]
    · intro id h
      simp [stopWatchHeading, h, truthy, Handle.hasStop, clearInterval]
    · cases h : s.watchHeadingInterval <;> simp [stopWatchHeading, h, truthy]
    · cases h : s.watchHeadingInterval <;> simp [stopWatchHeading, h, truthy]

/-- Witness of `stop_is_idempotent_success`: `stopWatch` in the initial state, and
`stopWatchHeading` after `startMockHeadingWatch` has stored timer 1. -/
theorem stop_is_idempotent_success_witness :
    (stopWatch State.init).1 = State.init ∧
      (stopWatchHeading (startMockHeadingWatch 100 State.init)).1
        = { startMockHeadingWatch 100 State.init with
              watchHeadingInterval := none,
              timers := (startMockHeadingWatch 100 State.init).timers.filter
                fun t => t.id ≠ 1 } :=
  ⟨(stop_is_idempotent_success State.init).1.2.1 rfl,
   (stop_is_idempotent_success (startMockHeadingWatch 100 State.init)).2.2.2.2.1 1 rfl⟩

/-! ## Single reading without the capability -/

/-- C7: when `window` exposes no `Magnetometer`, `getReading` makes exactly one
call, the success continuation with x = 25.5, y = -12.3, z = 45.8,
magnitude = 54.2 and the current time, and returns the state unchanged, both
session variables included. -/
theorem getReading_without_capability (w : Window) (now : ℕ) (s : State)
    (h : w.hasMagnetometer = false) :
    getReading w now s
      = (s, [Call.success (.reading
          { x := 25.5, y := -12.3, z := 45.8, magnitude := 54.2, timestamp := now })]) := by
  simp [getReading, h, mockReading]

/-- Witness of `getReading_without_capability`: a bare window, the initial state. -/
theorem getReading_without_capability_witness :
    bareWindow.hasMagnetometer = false ∧
      getReading bareWindow 42 State.init
        = (State.init, [Call.success (.reading
            { x := 25.5, y := -12.3, z := 45.8, magnitude := 54.2, timestamp := 42 })]) :=
  ⟨rfl, getReading_without_capability bareWindow 42 State.init rfl⟩

/-! ## Independence of the two watch types -/

/-- The calls `h.stop()` and `clearInterval(h)` assign to no module variable and
allocate nothing. -/
theorem release_fields (h : Handle) (s : State) :
    ((h.stop s).watchInterval = s.watchInterval ∧
        (h.stop s).watchHeadingInterval = s.watchHeadingInterval ∧
        (h.stop s).nextId = s.nextId) ∧
      ((clearInterval h s).watchInterval = s.watchInterval ∧
        (clearInterval h s).watchHeadingInterval = s.watchHeadingInterval ∧
        (clearInterval h s).nextId = s.nextId) := by
  cases h <;> exact ⟨⟨rfl, rfl, rfl⟩, ⟨rfl, rfl, rfl⟩⟩

/-- No listener and no timer body assigns to a session variable or allocates. -/
theorem dispatch_fields (now : ℕ) (e : Event) (s : State) :
    (dispatch now e s).1.watchInterval = s.watchInterval ∧
      (dispatch now e s).1.watchHeadingInterval = s.watchHeadingInterval ∧
      (dispatch now e s).1.nextId = s.nextId := by
  cases e with
  | reading id v =>
    simp only [dispatch]
    split
    · simp only [onReading]
      split <;> exact ⟨rfl, rfl, rfl⟩
    · exact ⟨rfl, rfl, rfl⟩
  | error id message =>
    simp only [dispatch]
    split
    · simp only [onError]
      split <;> exact ⟨rfl, rfl, rfl⟩
    · exact ⟨rfl, rfl, rfl⟩
  | tick id =>
    simp only [dispatch]
    split
    · simp only [onTick]
      split <;> exact ⟨rfl, rfl, rfl⟩
    · exact ⟨rfl, rfl, rfl⟩

/-- A live handle stays live when a sensor or timer other than its own is
released. -/
theorem live_after_release (h h0 : Handle) (s : State) (hne : h0 ≠ h)
    (hl : h.live s = true) :
    h.live (h0.stop s) = true ∧ h.live (clearInterval h0 s) = true := by
  cases h with
  | sensor id =>
    cases h0 with
    | sensor id0 =>
      have hid : id ≠ id0 := fun e => hne (by rw [e])
      refine ⟨?_, hl⟩
      simp only [Handle.live, List.any_eq_true, decide_eq_true_eq] at hl ⊢
      obtain ⟨sn, hsn, he⟩ := hl
      refine ⟨sn, ?_, he⟩
      simp only [Handle.stop, sensorStop, List.mem_filter, decide_eq_true_eq]
      exact ⟨hsn, by rw [he]; exact hid⟩
    | timer id0 => exact ⟨hl, hl⟩
  | timer id =>
    cases h0 with
    | sensor id0 => exact ⟨hl, hl⟩
    | timer id0 =>
      have hid : id ≠ id0 := fun e => hne (by rw [e])
      refine ⟨hl, ?_⟩
      simp only [Handle.live, List.any_eq_true, decide_eq_true_eq] at hl ⊢
      obtain ⟨t, ht, he⟩ := hl
      refine ⟨t, ?_, he⟩
      simp only [clearInterval, List.mem_filter, decide_eq_true_eq]
      exact ⟨ht, by rw [he]; exact hid⟩

/-- A live handle stays live in a state that keeps or extends the lists of live
sensors and timers. -/
theorem live_of_extend (h : Handle) (s t : State)
    (h1 : ∀ sn ∈ s.sensors, sn ∈ t.sensors) (h2 : ∀ tm ∈ s.timers, tm ∈ t.timers)
    (hl : h.live s = true) : h.live t = true := by
  cases h with
  | sensor id =>
    simp only [Handle.live, List.any_eq_true, decide_eq_true_eq] at hl ⊢
    obtain ⟨sn, hsn, he⟩ := hl
    exact ⟨sn, h1 sn hsn, he⟩
  | timer id =>
    simp only [Handle.live, List.any_eq_true, decide_eq_true_eq] at hl ⊢
    obtain ⟨tm, htm, he⟩ := hl
    exact ⟨tm, h2 tm htm, he⟩

/-- The function `watchReadings` neither assigns to `watchHeadingInterval` nor
depends on its value. -/
theorem watchReadings_frame (w : Window) (args : Option (List ℝ)) (s : State) :
    (watchReadings w args s).1.watchHeadingInterval = s.watchHeadingInterval ∧
      ∀ x, watchReadings w args { s with watchHeadingInterval := x }
        = ({ (watchReadings w args s).1 with watchHeadingInterval := x },
            (watchReadings w args s).2) := by
  constructor
  · cases hw : s.watchInterval with
    | none =>
      cases hm : w.hasMagnetometer <;> cases ha : w.magnetometer <;>
        simp [watchReadings, hw, hm, ha, truthy, startSensor, startMockWatch, setInterval]
    | some h0 =>
      cases h0 <;> cases hm : w.hasMagnetometer <;> cases ha : w.magnetometer <;>
        simp [watchReadings, hw, hm, ha, truthy, startSensor, startMockWatch, setInterval,
          clearInterval]
  · intro x
    cases hw : s.watchInterval with
    | none =>
      cases hm : w.hasMagnetometer <;> cases ha : w.magnetometer <;>
        simp [watchReadings, hw, hm, ha, truthy, startSensor, startMockWatch, setInterval]
    | some h0 =>
      cases h0 <;> cases hm : w.hasMagnetometer <;> cases ha : w.magnetometer <;>
        simp [watchReadings, hw, hm, ha, truthy, startSensor, startMockWatch, setInterval,
          clearInterval]

/-- The function `watchHeading` neither assigns to `watchInterval` nor depends on
its value. -/
theorem watchHeading_frame (w : Window) (args : Option (List ℝ)) (s : State) :
    (watchHeading w args s).1.watchInterval = s.watchInterval ∧
      ∀ x, watchHeading w args { s with watchInterval := x }
        = ({ (watchHeading w args s).1 with watchInterval := x },
            (watchHeading w args s).2) := by
  constructor
  · cases hw : s.watchHeadingInterval with
    | none =>
      cases hm : w.hasAbsoluteOrientationSensor <;> cases ha : w.orientation <;>
        simp [watchHeading, hw, hm, ha, truthy, startSensor, startMockHeadingWatch,
          setInterval]
    | some h0 =>
      cases h0 <;> cases hm : w.hasAbsoluteOrientationSensor <;> cases ha : w.orientation <;>
        simp [watchHeading, hw, hm, ha, truthy, startSensor, startMockHeadingWatch,
          setInterval, clearInterval, Handle.hasStop, Handle.stop, sensorStop]
  · intro x
    cases hw : s.watchHeadingInterval with
    | none =>
      cases hm : w.hasAbsoluteOrientationSensor <;> cases ha : w.orientation <;>
        simp [watchHeading, hw, hm, ha, truthy, startSensor, startMockHeadingWatch,
          setInterval]
    | some h0 =>
      cases h0 <;> cases hm : w.hasAbsoluteOrientationSensor <;> cases ha : w.orientation <;>
        simp [watchHeading, hw, hm, ha, truthy, startSensor, startMockHeadingWatch,
          setInterval, clearInterval, Handle.hasStop, Handle.stop, sensorStop]

/-- The function `stopWatch` neither assigns to `watchHeadingInterval` nor depends
on its value, and `stopWatchHeading` neither assigns to `watchInterval` nor
depends on its value. -/
theorem stop_frame (s : State) :
    ((stopWatch s).1.watchHeadingInterval = s.watchHeadingInterval ∧
      ∀ x, stopWatch { s with watchHeadingInterval := x }
        = ({ (stopWatch s).1 with watchHeadingInterval := x }, (stopWatch s).2)) ∧
    ((stopWatchHeading s).1.watchInterval = s.watchInterval ∧
      ∀ x, stopWatchHeading { s with watchInterval := x }
        = ({ (stopWatchHeading s).1 with watchInterval := x }, (stopWatchHeading s).2)) := by
  refine ⟨⟨?_, ?_⟩, ⟨?_, ?_⟩⟩
  · cases hw : s.watchInterval with
    | none => simp [stopWatch, hw, truthy]
    | some h0 =>
      cases h0 <;>
        simp [stopWatch, hw, truthy, clearInterval, Handle.hasStop, Handle.stop, sensorStop]
  · intro x
    cases hw : s.watchInterval with
    | none => simp [stopWatch, hw, truthy]
    | some h0 =>
      cases h0 <;>
        simp [stopWatch, hw, truthy, clearInterval, Handle.hasStop, Handle.stop, sensorStop]
  · cases hw : s.watchHeadingInterval with
    | none => simp [stopWatchHeading, hw, truthy]
    | some h0 =>
      cases h0 <;>
        simp [stopWatchHeading, hw, truthy, clearInterval, Handle.hasStop, Handle.stop,
          sensorStop]
  · intro x
    cases hw : s.watchHeadingInterval with
    | none => simp [stopWatchHeading, hw, truthy]
    | some h0 =>
      cases h0 <;>
        simp [stopWatchHeading, hw, truthy, clearInterval, Handle.hasStop, Handle.stop,
          sensorStop]

/-- The function `watchReadings` releases no resource other than the one in
`watchInterval`: every other live handle stays live. -/
theorem watchReadings_keeps_live (w : Window) (args : Option (List ℝ)) (s : State)
    (h : Handle) (hne : s.watchInterval ≠ some h) (hl : h.live s = true) :
    h.live (watchReadings w args s).1 = true := by
  have h1 : h.live
      (if truthy s.watchInterval then
        match s.watchInterval with
        | some h0 => clearInterval h0 s
        | none => s
      else s) = true := by
    cases hw : s.watchInterval with
    | none => simpa [truthy] using hl
    | some h0 =>
      simp only [truthy, if_true]
      exact (live_after_release h h0 s (fun e => hne (by rw [hw, e])) hl).2
  unfold watchReadings
  simp only
  generalize (if truthy s.watchInterval then
        match s.watchInterval with
        | some h0 => clearInterval h0 s
        | none => s
      else s) = s1 at h1 ⊢
  split
  · split
    · exact live_of_extend h s1 _ (fun _ hsn => List.mem_cons_of_mem _ hsn)
        (fun _ htm => htm) h1
    · exact live_of_extend h s1 _ (fun _ hsn => hsn)
        (fun _ htm => List.mem_cons_of_mem _ htm) h1
  · exact live_of_extend h s1 _ (fun _ hsn => hsn)
      (fun _ htm => List.mem_cons_of_mem _ htm) h1

/-- The function `watchHeading` releases no resource other than the one in
`watchHeadingInterval`: every other live handle stays live. -/
theorem watchHeading_keeps_live (w : Window) (args : Option (List ℝ)) (s : State)
    (h : Handle) (hne : s.watchHeadingInterval ≠ some h) (hl : h.live s = true) :
    h.live (watchHeading w args s).1 = true := by
  have h1 : h.live
      (if truthy s.watchHeadingInterval then
        match s.watchHeadingInterval with
        | some h0 => if h0.hasStop then h0.stop s else clearInterval h0 s
        | none => s
      else s) = true := by
    cases hw : s.watchHeadingInterval with
    | none => simpa [truthy] using hl
    | some h0 =>
      have hr := live_after_release h h0 s (fun e => hne (by rw [hw, e])) hl
      simp only [truthy, if_true]
      split
      · exact hr.1
      · exact hr.2
  unfold watchHeading
  simp only
  generalize (if truthy s.watchHeadingInterval then
        match s.watchHeadingInterval with
        | some h0 => if h0.hasStop then h0.stop s else clearInterval h0 s
        | none => s
      else s) = s1 at h1 ⊢
  split
  · split
    · exact live_of_extend h s1 _ (fun _ hsn => List.mem_cons_of_mem _ hsn)
        (fun _ htm => htm) h1
    · exact live_of_extend h s1 _ (fun _ hsn => hsn)
        (fun _ htm => List.mem_cons_of_mem _ htm) h1
  · exact live_of_extend h s1 _ (fun _ hsn => hsn)
      (fun _ htm => List.mem_cons_of_mem _ htm) h1

/-- The functions `stopWatch` and `stopWatchHeading` release no resource other
than the one in their own variable: every other live handle stays live. -/
theorem stop_keeps_live (s : State) (h : Handle) (hl : h.live s = true) :
    (s.watchInterval ≠ some h → h.live (stopWatch s).1 = true) ∧
      (s.watchHeadingInterval ≠ some h → h.live (stopWatchHeading s).1 = true) := by
  constructor
  · intro hne
    cases hw : s.watchInterval with
    | none => simpa [stopWatch, hw, truthy] using hl
    | some h0 =>
      have hr := live_after_release h h0 s (fun e => hne (by rw [hw, e])) hl
      simp only [stopWatch, hw, truthy, if_true]
      split
      · exact live_of_extend h (h0.stop s) _ (fun _ hsn => hsn) (fun _ htm => htm) hr.1
      · exact live_of_extend h (clearInterval h0 s) _ (fun _ hsn => hsn) (fun _ htm => htm)
          hr.2
  · intro hne
    cases hw : s.watchHeadingInterval with
    | none => simpa [stopWatchHeading, hw, truthy] using hl
    | some h0 =>
      have hr := live_after_release h h0 s (fun e => hne (by rw [hw, e])) hl
      simp only [stopWatchHeading, hw, truthy, if_true]
      split
      · exact live_of_extend h (h0.stop s) _ (fun _ hsn => hsn) (fun _ htm => htm) hr.1
      · exact live_of_extend h (clearInterval h0 s) _ (fun _ hsn => hsn) (fun _ htm => htm)
          hr.2

/-- The single-shot functions assign to no session variable; they allocate at
most the sensor they start. -/
theorem single_shot_fields (w : Window) (now : ℕ) (s : State) :
    ((getReading w now s).1.watchInterval = s.watchInterval ∧
        (getReading w now s).1.watchHeadingInterval = s.watchHeadingInterval ∧
        s.nextId ≤ (getReading w now s).1.nextId) ∧
      ((getHeading w now s).1.watchInterval = s.watchInterval ∧
        (getHeading w now s).1.watchHeadingInterval = s.watchHeadingInterval ∧
        s.nextId ≤ (getHeading w now s).1.nextId) ∧
      ((getFieldStrength w s).1.watchInterval = s.watchInterval ∧
        (getFieldStrength w s).1.watchHeadingInterval = s.watchHeadingInterval ∧
        s.nextId ≤ (getFieldStrength w s).1.nextId) := by
  refine ⟨?_, ?_, ?_⟩
  · cases hm : w.hasMagnetometer <;> cases ha : w.magnetometer <;>
      simp [getReading, hm, ha, startSensor]
  · cases hm : w.hasAbsoluteOrientationSensor <;> cases ha : w.orientation <;>
      simp [getHeading, hm, ha, startSensor]
  · cases hm : w.hasMagnetometer <;> cases ha : w.magnetometer <;>
      simp [getFieldStrength, hm, ha, startSensor]

/-- The handle `watchReadings` stores is freshly allocated, and so is the one
`watchHeading` stores. -/
theorem watch_alloc (w : Window) (args : Option (List ℝ)) (s : State) :
    ((∃ h, (watchReadings w args s).1.watchInterval = some h ∧ h.id = s.nextId + 1) ∧
        (watchReadings w args s).1.nextId = s.nextId + 1) ∧
      ((∃ h, (watchHeading w args s).1.watchHeadingInterval = some h ∧
          h.id = s.nextId + 1) ∧
        (watchHeading w args s).1.nextId = s.nextId + 1) := by
  constructor
  · cases hw : s.watchInterval with
    | none =>
      cases hm : w.hasMagnetometer <;> cases ha : w.magnetometer <;>
        simp [watchReadings, hw, hm, ha, truthy, startSensor, startMockWatch, setInterval,
          Handle.id]
    | some h0 =>
      cases h0 <;> cases hm : w.hasMagnetometer <;> cases ha : w.magnetometer <;>
        simp [watchReadings, hw, hm, ha, truthy, startSensor, startMockWatch, setInterval,
          clearInterval, Handle.id]
  · cases hw : s.watchHeadingInterval with
    | none =>
      cases hm : w.hasAbsoluteOrientationSensor <;> cases ha : w.orientation <;>
        simp [watchHeading, hw, hm, ha, truthy, startSensor, startMockHeadingWatch,
          setInterval, Handle.id]
    | some h0 =>
      cases h0 <;> cases hm : w.hasAbsoluteOrientationSensor <;> cases ha : w.orientation <;>
        simp [watchHeading, hw, hm, ha, truthy, startSensor, startMockHeadingWatch,
          setInterval, clearInterval, Handle.hasStop, Handle.stop, sensorStop, Handle.id]

/-- The stop functions set their own variable to `null` and allocate nothing. -/
theorem stop_fields (s : State) :
    ((stopWatch s).1.watchInterval = none ∧ (stopWatch s).1.nextId = s.nextId) ∧
      ((stopWatchHeading s).1.watchHeadingInterval = none ∧
        (stopWatchHeading s).1.nextId = s.nextId) := by
  constructor
  · cases hw : s.watchInterval with
    | none => simp [stopWatch, hw, truthy]
    | some h0 =>
      cases h0 <;>
        simp [stopWatch, hw, truthy, clearInterval, Handle.hasStop, Handle.stop, sensorStop]
  · cases hw : s.watchHeadingInterval with
    | none => simp [stopWatchHeading, hw, truthy]
    | some h0 =>
      cases h0 <;>
        simp [stopWatchHeading, hw, truthy, clearInterval, Handle.hasStop, Handle.stop,
          sensorStop]

/-- A state with the same session variables and no smaller allocation counter
keeps the invariant. -/
theorem slotsDistinct_of_fields (s t : State) (h1 : t.watchInterval = s.watchInterval)
    (h2 : t.watchHeadingInterval = s.watchHeadingInterval) (h3 : s.nextId ≤ t.nextId)
    (hs : SlotsDistinct s) : SlotsDistinct t := by
  obtain ⟨a, b, c⟩ := hs
  refine ⟨?_, ?_, ?_⟩
  · intro h hh
    exact le_trans (a h (by rw [← h1]; exact hh)) h3
  · intro h hh
    exact le_trans (b h (by rw [← h2]; exact hh)) h3
  · intro h hh
    rw [h2]
    exact c h (by rw [← h1]; exact hh)

/-- Every step keeps the invariant. -/
theorem slotsDistinct_step (st : Step) (s : State) (hs : SlotsDistinct s) :
    SlotsDistinct (runStep st s).1 := by
  cases st with
  | isAvailable w => exact hs
  | getMagnetometerInfo w now => exact hs
  | getAccuracy => exact hs
  | isCalibrationNeeded => exact hs
  | getReading w now =>
    obtain ⟨a, b, c⟩ := (single_shot_fields w now s).1
    exact slotsDistinct_of_fields s _ a b c hs
  | getHeading w now =>
    obtain ⟨a, b, c⟩ := (single_shot_fields w now s).2.1
    exact slotsDistinct_of_fields s _ a b c hs
  | getFieldStrength w =>
    obtain ⟨a, b, c⟩ := (single_shot_fields w 0 s).2.2
    exact slotsDistinct_of_fields s _ a b c hs
  | event now e =>
    obtain ⟨a, b, c⟩ := dispatch_fields now e s
    exact slotsDistinct_of_fields s _ a b (le_of_eq c.symm) hs
  | watchReadings w args =>
    obtain ⟨⟨h0, e0, i0⟩, n0⟩ := (watch_alloc w args s).1
    have f0 := (watchReadings_frame w args s).1
    obtain ⟨_, b, _⟩ := hs
    simp only [runStep]
    refine ⟨?_, ?_, ?_⟩
    · intro h hh
      rw [e0] at hh
      cases hh
      omega
    · intro h hh
      rw [f0] at hh
      have := b h hh
      omega
    · intro h hh hc
      rw [e0] at hh
      cases hh
      rw [f0] at hc
      have := b h0 hc
      omega
  | watchHeading w args =>
    obtain ⟨⟨h0, e0, i0⟩, n0⟩ := (watch_alloc w args s).2
    have f0 := (watchHeading_frame w args s).1
    obtain ⟨a, _, _⟩ := hs
    simp only [runStep]
    refine ⟨?_, ?_, ?_⟩
    · intro h hh
      rw [f0] at hh
      have := a h hh
      omega
    · intro h hh
      rw [e0] at hh
      cases hh
      omega
    · intro h hh hc
      rw [e0] at hc
      cases hc
      rw [f0] at hh
      have := a h0 hh
      omega
  | stopWatch =>
    obtain ⟨e0, n0⟩ := (stop_fields s).1
    have f0 := (stop_frame s).1.1
    obtain ⟨_, b, _⟩ := hs
    simp only [runStep]
    refine ⟨?_, ?_, ?_⟩
    · intro h hh
      rw [e0] at hh
      cases hh
    · intro h hh
      rw [f0] at hh
      rw [n0]
      exact b h hh
    · intro h hh
      rw [e0] at hh
      cases hh
  | stopWatchHeading =>
    obtain ⟨e0, n0⟩ := (stop_fields s).2
    have f0 := (stop_frame s).2.1
    obtain ⟨a, _, _⟩ := hs
    simp only [runStep]
    refine ⟨?_, ?_, ?_⟩
    · intro h hh
      rw [f0] at hh
      rw [n0]
      exact a h hh
    · intro h hh
      rw [e0] at hh
      cases hh
    · intro h _ hc
      rw [e0] at hc
      cases hc

/-- Every state the module can reach from its initial state has the invariant:
the two session variables never hold the same handle. -/
theorem slotsDistinct_runSteps (steps : List Step) (s : State) (hs : SlotsDistinct s) :
    SlotsDistinct (runSteps steps s) := by
  induction steps generalizing s with
  | nil => exact hs
  | cons st rest ih => exact ih _ (slotsDistinct_step st s hs)

/-- The initial state has the invariant. -/
theorem slotsDistinct_init : SlotsDistinct State.init := by
  refine ⟨?_, ?_, ?_⟩ <;> intro h hh <;> cases hh

/-- C11: the two watch types are independent. `watchReadings` and `stopWatch`
leave `watchHeadingInterval` as it is, return the same result whatever its value
(they do not read it), and keep the session it holds live; `watchHeading` and
`stopWatchHeading` do the same with `watchInterval`; the seven other functions,
and every listener and timer body, leave both variables as they are. The session
of the other type is a handle different from the one in the function's own
variable, which is the case in every state the module can reach. -/
theorem watch_types_independent (w : Window) (now : ℕ) (args : Option (List ℝ))
    (s : State) :
    -- the magnetic pair and the heading variable
    (((watchReadings w args s).1.watchHeadingInterval = s.watchHeadingInterval ∧
        (stopWatch s).1.watchHeadingInterval = s.watchHeadingInterval) ∧
      (∀ x, watchReadings w args { s with watchHeadingInterval := x }
            = ({ (watchReadings w args s).1 with watchHeadingInterval := x },
                (watchReadings w args s).2) ∧
          stopWatch { s with watchHeadingInterval := x }
            = ({ (stopWatch s).1 with watchHeadingInterval := x }, (stopWatch s).2)) ∧
      (∀ h, s.watchHeadingInterval = some h → s.watchInterval ≠ some h →
          h.live s = true →
        h.live (watchReadings w args s).1 = true ∧ h.live (stopWatch s).1 = true)) ∧
    -- the heading pair and the magnetic variable
    (((watchHeading w args s).1.watchInterval = s.watchInterval ∧
        (stopWatchHeading s).1.watchInterval = s.watchInterval) ∧
      (∀ x, watchHeading w args { s with watchInterval := x }
            = ({ (watchHeading w args s).1 with watchInterval := x },
                (watchHeading w args s).2) ∧
          stopWatchHeading { s with watchInterval := x }
            = ({ (stopWatchHeading s).1 with watchInterval := x },
                (stopWatchHeading s).2)) ∧
      (∀ h, s.watchInterval = some h → s.watchHeadingInterval ≠ some h →
          h.live s = true →
        h.live (watchHeading w args s).1 = true ∧
          h.live (stopWatchHeading s).1 = true)) ∧
    -- the other functions
    ((isAvailable w s).1 = s ∧ (getMagnetometerInfo w now s).1 = s ∧
      (getAccuracy s).1 = s ∧ (isCalibrationNeeded s).1 = s ∧
      ((getReading w now s).1.watchInterval = s.watchInterval ∧
        (getReading w now s).1.watchHeadingInterval = s.watchHeadingInterval) ∧
      ((getHeading w now s).1.watchInterval = s.watchInterval ∧
        (getHeading w now s).1.watchHeadingInterval = s.watchHeadingInterval) ∧
      ((getFieldStrength w s).1.watchInterval = s.watchInterval ∧
        (getFieldStrength w s).1.watchHeadingInterval = s.watchHeadingInterval)) ∧
    -- the listeners and timer bodies
    (∀ e, (dispatch now e s).1.watchInterval = s.watchInterval ∧
      (dispatch now e s).1.watchHeadingInterval = s.watchHeadingInterval) ∧
    -- in every reachable state the two variables hold different handles
    ∀ steps h, (runSteps steps State.init).watchInterval = some h →
      (runSteps steps State.init).watchHeadingInterval ≠ some h := by
  refine ⟨⟨⟨?_, ?_⟩, ?_, ?_⟩, ⟨⟨?_, ?_⟩, ?_, ?_⟩, ?_, ?_, ?_⟩
  · exact (watchReadings_frame w args s).1
  · exact (stop_frame s).1.1
  · intro x
    exact ⟨(watchReadings_frame w args s).2 x, (stop_frame s).1.2 x⟩
  · intro h _ hne hl
    exact ⟨watchReadings_keeps_live w args s h hne hl, (stop_keeps_live s h hl).1 hne⟩
  · exact (watchHeading_frame w args s).1
  · exact (stop_frame s).2.1
  · intro x
    exact ⟨(watchHeading_frame w args s).2 x, (stop_frame s).2.2 x⟩
  · intro h _ hne hl
    exact ⟨watchHeading_keeps_live w args s h hne hl, (stop_keeps_live s h hl).2 hne⟩
  · obtain ⟨⟨a1, a2, _⟩, ⟨b1, b2, _⟩, ⟨c1, c2, _⟩⟩ := single_shot_fields w now s
    exact ⟨rfl, rfl, rfl, rfl, ⟨a1, a2⟩, ⟨b1, b2⟩, ⟨c1, c2⟩⟩
  · intro e
    obtain ⟨a, b, _⟩ := dispatch_fields now e s
    exact ⟨a, b⟩
  · intro steps h
    exact (slotsDistinct_runSteps steps State.init slotsDistinct_init).2.2 h

/-- Witness of `watch_types_independent`: with the first orientation sensor in
`watchHeadingInterval` and the second sensor, a Magnetometer, in `watchInterval`,
a further `watchReadings` and a `stopWatch` both leave the orientation sensor
started. -/
theorem watch_types_independent_witness :
    Handle.live (.sensor 1)
        (watchReadings hardwareWindow none
          (watchReadings hardwareWindow none
            (watchHeading hardwareWindow none State.init).1).1).1 = true ∧
      Handle.live (.sensor 1)
        (stopWatch
          (watchReadings hardwareWindow none
            (watchHeading hardwareWindow none State.init).1).1).1 = true :=
  (watch_types_independent hardwareWindow 0 none
      (watchReadings hardwareWindow none
        (watchHeading hardwareWindow none State.init).1).1).1.2.2
    (.sensor 1)
    (by simp [watchReadings, watchHeading, hardwareWindow, State.init, truthy, startSensor])
    (by simp [watchReadings, watchHeading, hardwareWindow, State.init, truthy, startSensor])
    (by simp [watchReadings, watchHeading, hardwareWindow, State.init, truthy, startSensor,
          Handle.live])

end MagnetometerProxy
